import Mathlib

set_option maxRecDepth 8000

/-!
Shallow embedding of `src/lib/api/logs/EtherscanEventGetter.ts`.

The file models the query builder (`prepareEtherscanGetLogsQuery`), the event
normalizer (`formatEtherscanEvent`) and the response-classification /
retry / pagination orchestration (`EtherscanEventGetter.getEvents`) of the
repository, and proves the specification claims about them.

Modelling conventions:
- JavaScript strings are Lean `String`s (the claims only involve ASCII data,
  where JS UTF-16 `length` agrees with Lean `String.length`).
- Machine numbers occurring here are block numbers, indices and lengths; the
  code never overflows them, so they are `Nat` / `Int`.
- A JS `number` that may be `NaN` (the result of `Number.parseInt`) is an
  `Option Int`, `none` standing for `NaN`.
- The HTTP layer (axios, the per-chain `RequestQueue` and `retryOn429`) is
  abstracted into an oracle `responses : Nat → JsResult` giving, per page
  number, the `data.result` field of the eventually-successful response for
  the fixed chain/filter under consideration; no claim concerns the transport
  layer itself.
- The unbounded recursion of `getEvents` is made structural with a `fuel`
  argument; running out of fuel is the distinguished outcome
  `GetEventsError.outOfFuel`, never produced by the JS code itself.
- The external viem `getAddress` checksum normalizer is a parameter
  `getAddress : String → String` (it is an external collaborator, out of
  scope of the spec).
-/

set_option autoImplicit false

namespace Etherscan

/-- A topic entry of a `Filter`, as the JS values the source can receive at a
topic position: `undefined` (index beyond the array), `null`, a string, or an
array of strings. -/
inductive TopicEntry where
  | undef
  | nullv
  | str (s : String)
  | arr (l : List String)
deriving DecidableEq

/-- JS truthiness of a topic entry: `undefined` and `null` are falsy, a string
is truthy iff it is nonempty, an array object is always truthy. -/
def TopicEntry.truthy : TopicEntry → Bool
  | .undef => false
  | .nullv => false
  | .str s => decide (s ≠ "")
  | .arr _ => true

/-- Model of JS `String.prototype.toLowerCase` via per-character lowercasing
(the topics in play are ASCII hex strings). -/
def jsToLowerCase (s : String) : String :=
  String.mk (s.toList.map Char.toLower)

/-- The map `(topic) => typeof topic === 'string' ? topic.toLowerCase() : topic`
applied to each topic entry. -/
def TopicEntry.lowerIfString : TopicEntry → TopicEntry
  | .str s => .str (jsToLowerCase s)
  | t => t

/-- The part of the caller-supplied `Filter` the source reads: the optional
block bounds and the optional topics array. `none` is JS `undefined`. -/
structure Filter where
  fromBlock : Option Nat
  toBlock : Option Nat
  topics : Option (List TopicEntry)
deriving DecidableEq

/-- The `toBlock` query value: a block number, or the `'latest'` sentinel used
when the filter has no `toBlock`. -/
inductive BlockParam where
  | num (n : Nat)
  | latest
deriving DecidableEq

/-- The query object built by `prepareEtherscanGetLogsQuery`. An
`Option String` combinator field with value `none` models a JS `undefined`
entry, which the HTTP layer omits from the request. -/
structure EtherscanQuery where
  module : String
  action : String
  fromBlock : Nat
  toBlock : BlockParam
  topic0 : TopicEntry
  topic1 : TopicEntry
  topic2 : TopicEntry
  topic3 : TopicEntry
  topic0_1_opr : Option String
  topic0_2_opr : Option String
  topic0_3_opr : Option String
  topic1_2_opr : Option String
  topic1_3_opr : Option String
  topic2_3_opr : Option String
  offset : Nat
  apiKey : Option String
  page : Nat
deriving DecidableEq

/-- Embedding of `prepareEtherscanGetLogsQuery` from the source: lowercase the
string topics, destructure the first four entries (`undefined` when missing),
default the block bounds, and emit a pairwise `'and'` combinator exactly when
both topics of the pair are truthy. -/
def prepareEtherscanGetLogsQuery (filter : Filter) (page : Nat)
    (apiKey : Option String) : EtherscanQuery :=
  let mapped := (filter.topics.getD []).map TopicEntry.lowerIfString
  let topic0 := mapped.getD 0 .undef
  let topic1 := mapped.getD 1 .undef
  let topic2 := mapped.getD 2 .undef
  let topic3 := mapped.getD 3 .undef
  { module := "logs"
    action := "getLogs"
    fromBlock := filter.fromBlock.getD 0
    toBlock :=
      match filter.toBlock with
      | some n => .num n
      | none => .latest
    topic0 := topic0
    topic1 := topic1
    topic2 := topic2
    topic3 := topic3
    topic0_1_opr := if topic0.truthy && topic1.truthy then some "and" else none
    topic0_2_opr := if topic0.truthy && topic2.truthy then some "and" else none
    topic0_3_opr := if topic0.truthy && topic3.truthy then some "and" else none
    topic1_2_opr := if topic1.truthy && topic2.truthy then some "and" else none
    topic1_3_opr := if topic1.truthy && topic3.truthy then some "and" else none
    topic2_3_opr := if topic2.truthy && topic3.truthy then some "and" else none
    offset := 1000
    apiKey := apiKey
    page := page }

/-- Value of a single hexadecimal digit, `none` for a non-digit. -/
def hexDigit? (c : Char) : Option Nat :=
  if '0' ≤ c ∧ c ≤ '9' then some (c.toNat - '0'.toNat)
  else if 'a' ≤ c ∧ c ≤ 'f' then some (c.toNat - 'a'.toNat + 10)
  else if 'A' ≤ c ∧ c ≤ 'F' then some (c.toNat - 'A'.toNat + 10)
  else none

/-- Accumulate the value of the longest hex-digit run at the head of the
character list, stopping at the first non-digit. -/
def takeHexValue : List Char → Nat → Nat
  | c :: cs, acc =>
    match hexDigit? c with
    | some d => takeHexValue cs (acc * 16 + d)
    | none => acc
  | [], acc => acc

/-- True when the list starts with a hex digit. -/
def hasHexDigitHead : List Char → Bool
  | c :: _ => (hexDigit? c).isSome
  | [] => false

/-- Embedding of JS `Number.parseInt(s, 16)`: skip leading whitespace, an
optional sign, an optional `0x`/`0X` prefix, then read the longest run of hex
digits; the result is `NaN` (here `none`) if that run is empty. `parseInt`
never throws. -/
def parseIntHex (s : String) : Option Int :=
  let cs := s.toList.dropWhile Char.isWhitespace
  let signed : Bool × List Char :=
    match cs with
    | '-' :: rest => (true, rest)
    | '+' :: rest => (false, rest)
    | _ => (false, cs)
  let digits : List Char :=
    match signed.2 with
    | '0' :: 'x' :: rest => rest
    | '0' :: 'X' :: rest => rest
    | _ => signed.2
  if hasHexDigitHead digits then
    let v : Int := Int.ofNat (takeHexValue digits 0)
    some (if signed.1 then -v else v)
  else
    none

/-- A raw provider log record, with the fields `formatEtherscanEvent` reads
(note the provider spells the timestamp field `timeStamp`). -/
structure RawLog where
  address : String
  topics : List String
  data : String
  transactionHash : String
  blockNumber : String
  transactionIndex : String
  logIndex : String
  timeStamp : String
deriving DecidableEq

/-- The canonical `Log` produced by normalization. The four numeric fields are
`Option Int` because `Number.parseInt` yields `NaN` (`none`) on unparsable
input. -/
structure Log where
  address : String
  topics : List String
  data : String
  transactionHash : String
  blockNumber : Option Int
  transactionIndex : Option Int
  logIndex : Option Int
  timestamp : Option Int
deriving DecidableEq

/-- Embedding of `formatEtherscanEvent`, parameterized by the external viem
`getAddress` checksum normalizer. Topics are filtered by JS truthiness (a
string is falsy exactly when empty); the four numeric fields go through
`parseIntHex`. -/
def formatEtherscanEvent (getAddress : String → String) (etherscanLog : RawLog) : Log :=
  { address := getAddress etherscanLog.address
    topics := etherscanLog.topics.filter (fun topic => decide (topic ≠ ""))
    data := etherscanLog.data
    transactionHash := etherscanLog.transactionHash
    blockNumber := parseIntHex etherscanLog.blockNumber
    transactionIndex := parseIntHex etherscanLog.transactionIndex
    logIndex := parseIntHex etherscanLog.logIndex
    timestamp := parseIntHex etherscanLog.timeStamp }

/-- The `data.result` field of a provider response: an array of records, a
string (the provider's error channel), or any other JS value without a numeric
`length` of interest (`undefined`, `null`, a plain object…). -/
inductive JsResult where
  | arr (l : List RawLog)
  | str (s : String)
  | other
deriving DecidableEq

/-- JS `data.result?.length`: arrays and strings have a `length`; for the
other modelled values the optional chain yields `undefined`. -/
def JsResult.jsLength : JsResult → Option Nat
  | .arr l => some l.length
  | .str s => some s.length
  | .other => none

/-- Outcomes of a `getEvents` call that does not return logs. -/
inductive GetEventsError where
  | errMsg (msg : String)
  | typeError
  | outOfFuel
deriving DecidableEq

/-- True when `sub` occurs as a contiguous run somewhere in `l`. -/
def listContainsRun (sub : List Char) : List Char → Bool
  | [] => sub.isEmpty
  | c :: cs => sub.isPrefixOf (c :: cs) || listContainsRun sub cs

/-- JS `String.prototype.includes`: substring test. -/
def jsIncludes (s sub : String) : Bool :=
  listContainsRun sub.toList s.toList

/-- JS `data.result.map(formatEtherscanEvent)`: defined on arrays; calling
`.map` on a string or on the other modelled values raises a `TypeError`. -/
def JsResult.mapFormat (getAddress : String → String) :
    JsResult → Except GetEventsError (List Log)
  | .arr l => .ok (l.map (formatEtherscanEvent getAddress))
  | .str _ => .error .typeError
  | .other => .error .typeError

/-- Embedding of `EtherscanEventGetter.getEvents` for one fixed chain and
filter, against the response oracle `responses` (page ↦ `data.result`).
Mirrors the source order exactly: first the `data.result?.length === 1000`
check (paginate with `page + 1` when `fromBlock === toBlock`, else throw
`'Log response size exceeded'`), then the string checks (rate-limit marker:
recurse with the page argument omitted, so `page` takes its default value 1;
timeout marker: throw `'Log response size exceeded'`; any other string: throw
it), then the array check, then the success return. `fuel` only bounds the
otherwise unbounded recursion. -/
def getEvents (getAddress : String → String) (responses : Nat → JsResult)
    (filter : Filter) : Nat → Nat → Except GetEventsError (List Log)
  | 0, _ => .error .outOfFuel
  | fuel + 1, page =>
    let result := responses page
    if result.jsLength = some 1000 then
      if filter.fromBlock = filter.toBlock then
        match result.mapFormat getAddress with
        | .error e => .error e
        | .ok head =>
          match getEvents getAddress responses filter fuel (page + 1) with
          | .error e => .error e
          | .ok tail => .ok (head ++ tail)
      else
        .error (.errMsg "Log response size exceeded")
    else
      match result with
      | .str s =>
        if jsIncludes s "Max rate limit reached" then
          getEvents getAddress responses filter fuel 1
        else if jsIncludes s "Query Timeout occured" then
          .error (.errMsg "Log response size exceeded")
        else
          .error (.errMsg s)
      | .arr l => .ok (l.map (formatEtherscanEvent getAddress))
      | .other => .error (.errMsg "Could not retrieve event logs from the blockchain")


/-! ## Decidability and helper lemmas -/

instance instDecidableEqExcept {ε α : Type _} [DecidableEq ε] [DecidableEq α] :
    DecidableEq (Except ε α) := fun x y =>
  match x, y with
  | .error a, .error b =>
    if h : a = b then .isTrue (congrArg Except.error h)
    else .isFalse (fun hc => h (Except.error.inj hc))
  | .ok a, .ok b =>
    if h : a = b then .isTrue (congrArg Except.ok h)
    else .isFalse (fun hc => h (Except.ok.inj hc))
  | .error _, .ok _ => .isFalse (fun hc => Except.noConfusion hc)
  | .ok _, .error _ => .isFalse (fun hc => Except.noConfusion hc)

/-- Unfolding of `getEvents` on a page whose result is an array of exactly 1000
records: the full-page branch is taken, before any string rule can apply. -/
theorem getEvents_arr_full_unfold (cs : String → String) (responses : Nat → JsResult)
    (filter : Filter) (fuel page : Nat) (l : List RawLog)
    (h : responses page = .arr l) (hl : l.length = 1000) :
    getEvents cs responses filter (fuel + 1) page =
      if filter.fromBlock = filter.toBlock then
        match getEvents cs responses filter fuel (page + 1) with
        | .error e => .error e
        | .ok tail => .ok (l.map (formatEtherscanEvent cs) ++ tail)
      else .error (.errMsg "Log response size exceeded") := by
  simp only [getEvents, h, JsResult.jsLength, hl, JsResult.mapFormat, if_pos rfl]
  simp

/-- One pagination step: on a single-block filter, a full page prepends its
normalized records to whatever the recursive call for `page + 1` returns. -/
theorem getEvents_paginate_step (cs : String → String) (responses : Nat → JsResult)
    (filter : Filter) (fuel page : Nat) (l : List RawLog)
    (hfb : filter.fromBlock = filter.toBlock)
    (h : responses page = .arr l) (hl : l.length = 1000)
    (tail : List Log)
    (htail : getEvents cs responses filter fuel (page + 1) = .ok tail) :
    getEvents cs responses filter (fuel + 1) page =
      .ok (l.map (formatEtherscanEvent cs) ++ tail) := by
  rw [getEvents_arr_full_unfold cs responses filter fuel page l h hl, if_pos hfb, htail]

/-- Unfolding of `getEvents` on a page whose result is an array of fewer or
more than 1000 records: the plain success return. -/
theorem getEvents_arr_partial_unfold (cs : String → String) (responses : Nat → JsResult)
    (filter : Filter) (fuel page : Nat) (l : List RawLog)
    (h : responses page = .arr l) (hl : l.length ≠ 1000) :
    getEvents cs responses filter (fuel + 1) page =
      .ok (l.map (formatEtherscanEvent cs)) := by
  simp only [getEvents, h, JsResult.jsLength]
  rw [if_neg (by simpa using hl)]

/-- A well-formed topic value per the spec data model: a nonempty (hex or
address) string. -/
def validTopicB : TopicEntry → Bool
  | .str s => decide (s ≠ "")
  | _ => false

theorem jsToLowerCase_ne_empty {s : String} (h : s ≠ "") : jsToLowerCase s ≠ "" := by
  intro hc
  apply h
  have hdata : s.toList.map Char.toLower = [] := congrArg String.data hc
  have hnil : s.toList = [] := List.map_eq_nil_iff.mp hdata
  cases s with
  | mk data =>
    simp only [String.toList] at hnil
    simp [hnil]

theorem truthy_lowerIfString {t : TopicEntry} (h : validTopicB t = true) :
    t.lowerIfString.truthy = true := by
  cases t with
  | str s =>
    simp only [validTopicB, decide_eq_true_eq] at h
    simp only [TopicEntry.lowerIfString, TopicEntry.truthy, decide_eq_true_eq]
    exact jsToLowerCase_ne_empty h
  | undef => simp [validTopicB] at h
  | nullv => simp [validTopicB] at h
  | arr l => simp [validTopicB] at h

/-- Destructured topic value at position `i` is truthy exactly when the topics
list reaches that position, provided all entries are well-formed topics. -/
theorem getD_mapped_truthy (ts : List TopicEntry) (hvalid : ts.all validTopicB = true)
    (i : Nat) :
    ((ts.map TopicEntry.lowerIfString).getD i .undef).truthy = decide (i < ts.length) := by
  rw [List.getD_eq_getElem?_getD, List.getElem?_map]
  by_cases hi : i < ts.length
  · rw [List.getElem?_eq_getElem hi]
    have hmem : ts[i] ∈ ts := List.getElem_mem hi
    have hval : validTopicB ts[i] = true := List.all_eq_true.mp hvalid _ hmem
    simp [truthy_lowerIfString hval, hi]
  · rw [List.getElem?_eq_none (Nat.le_of_not_lt hi)]
    simp [TopicEntry.truthy, hi]

/-- The pairwise combinator for positions `i < j` is `'and'` exactly when the
topics list reaches position `j` (well-formed topics). -/
theorem combinator_value (ts : List TopicEntry) (hvalid : ts.all validTopicB = true)
    {i j : Nat} (hij : i < j) :
    (if ((ts.map TopicEntry.lowerIfString).getD i .undef).truthy
        && ((ts.map TopicEntry.lowerIfString).getD j .undef).truthy
      then some "and" else (none : Option String))
      = if j < ts.length then some "and" else none := by
  rw [getD_mapped_truthy ts hvalid i, getD_mapped_truthy ts hvalid j]
  by_cases hj : j < ts.length
  · have hi : i < ts.length := Nat.lt_trans hij hj
    simp [hi, hj]
  · simp [hj]

/-! ## Concrete data used by counterexamples and witnesses -/

/-- A well-formed raw record with one empty topic entry and hex fields. -/
def exampleRawLog : RawLog :=
  { address := "0x00000000000000000000000000000000000000aa"
    topics := ["0xabc", "", "0xdef"]
    data := "0xdata"
    transactionHash := "0xhash"
    blockNumber := "0x1a"
    transactionIndex := "0x0"
    logIndex := "0x2"
    timeStamp := "0x5f" }

/-- A raw record whose `blockNumber` field is not hexadecimal text. -/
def badHexRawLog : RawLog :=
  { address := "0x00000000000000000000000000000000000000bb"
    topics := ["0xabc"]
    data := "0x"
    transactionHash := "0xhash2"
    blockNumber := "xyz"
    transactionIndex := "0x1"
    logIndex := "0x0"
    timeStamp := "0x64" }

/-- A raw record none of whose four integer fields is hexadecimal text: no
digits at all, a non-hex word, the empty string, and a bare `0x` prefix. -/
def allBadRawLog : RawLog :=
  { address := "0x00000000000000000000000000000000000000cc"
    topics := ["0xabc"]
    data := "0x"
    transactionHash := "0xhash3"
    blockNumber := "xyz"
    transactionIndex := "not a number"
    logIndex := ""
    timeStamp := "0x" }

/-- A single-block filter (`fromBlock = toBlock`). -/
def filterSingleBlock : Filter := { fromBlock := some 5, toBlock := some 5, topics := none }

/-- A multi-block filter (`fromBlock ≠ toBlock`). -/
def filterMultiBlock : Filter := { fromBlock := some 1, toBlock := some 2, topics := none }

/-- A filter with only `fromBlock` set, so `fromBlock ≠ toBlock` (`undefined`). -/
def filterFromOnly : Filter := { fromBlock := some 3, toBlock := none, topics := none }

/-- Oracle serving the in-body rate-limit message at page 2 and one record at
page 1. -/
def rateLimitOracle : Nat → JsResult := fun page =>
  if page = 2 then .str "Max rate limit reached"
  else if page = 1 then .arr [exampleRawLog]
  else .other

/-- A string of exactly 1000 characters containing no marker phrase. -/
def thousandChars : String := String.mk (List.replicate 1000 'z')

/-- Oracle serving the 1000-character string on every page. -/
def longStringOracle : Nat → JsResult := fun _ => .str thousandChars

/-- Oracle serving a full page of 1000 records at page 1. -/
def fullPageOracle : Nat → JsResult := fun page =>
  if page = 1 then .arr (List.replicate 1000 exampleRawLog) else .other

/-- Oracle serving two full pages then a partial page. -/
def paginationOracle : Nat → JsResult := fun page =>
  if page = 3 then .arr [exampleRawLog] else .arr (List.replicate 1000 exampleRawLog)

/-- A filter with a single (lowercase) topic. -/
def singleTopicFilter : Filter :=
  { fromBlock := none, toBlock := none, topics := some [.str "0xa1b2"] }

/-- A filter with all four topics present. -/
def fourTopicFilter : Filter :=
  { fromBlock := none, toBlock := none
    topics := some [.str "0xa", .str "0xb", .str "0xc", .str "0xd"] }

/-- A filter with `fromBlock` present and `toBlock` absent. -/
def bothBlocksFilter : Filter := { fromBlock := some 7, toBlock := none, topics := none }


/-! ## Claim C1 -/

/-- C1 counterexample: the in-body rate-limit retry does not reuse the original
page number. With an oracle whose page 2 is the rate-limit message and whose
page 1 holds a record never served at page 2, a call for page 2 returns page
1's normalized record — the retried request was for page 1, not the identical
page-2 request the claim asserts. -/
theorem rateLimit_retry_resets_page_counterexample :
    rateLimitOracle 2 = .str "Max rate limit reached" ∧
    rateLimitOracle 1 = .arr [exampleRawLog] ∧
    rateLimitOracle 2 ≠ .arr [exampleRawLog] ∧
    getEvents id rateLimitOracle filterMultiBlock 2 2 =
      .ok [formatEtherscanEvent id exampleRawLog] ∧
    getEvents id rateLimitOracle filterMultiBlock 2 2 =
      getEvents id rateLimitOracle filterMultiBlock 1 1 :=
  ⟨rfl, rfl, by decide, rfl, rfl⟩

/-- C1 (amended): when a response's result is a string containing the in-body
rate-limit marker (and its length is not 1000, so the string rules apply),
`getEvents` recurses with the `page` argument omitted, i.e. page resets to its
default 1 rather than retrying the identical page; only a page-1 call retries
the identical request. -/
theorem rateLimit_retry_restarts_at_page_one (cs : String → String)
    (responses : Nat → JsResult) (filter : Filter) (fuel page : Nat) (s : String)
    (h : responses page = .str s) (hlen : s.length ≠ 1000)
    (hrl : jsIncludes s "Max rate limit reached" = true) :
    getEvents cs responses filter (fuel + 1) page =
      getEvents cs responses filter fuel 1 := by
  simp only [getEvents, h, JsResult.jsLength]
  rw [if_neg (by simpa using hlen)]
  simp [hrl]

/-- C1 witness: the amended theorem at a concrete rate-limited response. -/
theorem rateLimit_retry_restarts_at_page_one_witness :
    getEvents id (fun _ => .str "Max rate limit reached") filterMultiBlock 1 5 =
      getEvents id (fun _ => .str "Max rate limit reached") filterMultiBlock 0 1 :=
  rateLimit_retry_restarts_at_page_one id (fun _ => .str "Max rate limit reached")
    filterMultiBlock 0 5 "Max rate limit reached" rfl (by decide) (by decide)

/-! ## Claim C2 -/

/-- C2 counterexample: a record whose `blockNumber` is not hexadecimal text is
normalized without any error — `Number.parseInt` yields `NaN` (`none`) instead
of throwing — and the page's normalization completes, returning a `Log` with a
NaN-valued `blockNumber`, which the claim asserts cannot happen. -/
theorem invalid_hex_yields_nan_counterexample :
    parseIntHex badHexRawLog.blockNumber = none ∧
    formatEtherscanEvent id badHexRawLog =
      { address := "0x00000000000000000000000000000000000000bb"
        topics := ["0xabc"]
        data := "0x"
        transactionHash := "0xhash2"
        blockNumber := none
        transactionIndex := some 1
        logIndex := some 0
        timestamp := some 100 } ∧
    getEvents id (fun _ => .arr [badHexRawLog]) filterMultiBlock 1 1 =
      .ok [formatEtherscanEvent id badHexRawLog] :=
  ⟨rfl, rfl, rfl⟩

/-- C2 (amended): whichever of the four integer-valued fields (`blockNumber`,
`transactionIndex`, `logIndex`, `timeStamp`) is not valid hexadecimal text,
normalization does not raise: the whole page containing the record still
normalizes successfully, the record's normalized `Log` is included in the
result, and that `Log` carries `NaN` (`none`) in the corresponding field. -/
theorem invalid_hex_normalizes_to_nan (cs : String → String)
    (responses : Nat → JsResult) (filter : Filter) (fuel page : Nat)
    (l : List RawLog) (r : RawLog)
    (hmem : r ∈ l)
    (h : responses page = .arr l) (hlen : l.length ≠ 1000) :
    getEvents cs responses filter (fuel + 1) page =
      .ok (l.map (formatEtherscanEvent cs)) ∧
    formatEtherscanEvent cs r ∈ l.map (formatEtherscanEvent cs) ∧
    (parseIntHex r.blockNumber = none →
      (formatEtherscanEvent cs r).blockNumber = none) ∧
    (parseIntHex r.transactionIndex = none →
      (formatEtherscanEvent cs r).transactionIndex = none) ∧
    (parseIntHex r.logIndex = none →
      (formatEtherscanEvent cs r).logIndex = none) ∧
    (parseIntHex r.timeStamp = none →
      (formatEtherscanEvent cs r).timestamp = none) := by
  refine ⟨getEvents_arr_partial_unfold cs responses filter fuel page l h hlen,
    List.mem_map_of_mem _ hmem, ?_, ?_, ?_, ?_⟩ <;>
    intro hbad <;> simpa [formatEtherscanEvent] using hbad

/-- C2 witness: a two-record page containing a record whose four integer
fields are all non-hexadecimal normalizes successfully, with all four `Log`
fields `NaN`. -/
theorem invalid_hex_normalizes_to_nan_witness :
    getEvents id (fun _ => .arr [exampleRawLog, allBadRawLog]) filterMultiBlock 1 1 =
      .ok ([exampleRawLog, allBadRawLog].map (formatEtherscanEvent id)) ∧
    (formatEtherscanEvent id allBadRawLog).blockNumber = none ∧
    (formatEtherscanEvent id allBadRawLog).transactionIndex = none ∧
    (formatEtherscanEvent id allBadRawLog).logIndex = none ∧
    (formatEtherscanEvent id allBadRawLog).timestamp = none := by
  have h := invalid_hex_normalizes_to_nan id
    (fun _ => .arr [exampleRawLog, allBadRawLog]) filterMultiBlock 0 1
    [exampleRawLog, allBadRawLog] allBadRawLog (by simp) rfl (by decide)
  exact ⟨h.1, h.2.2.1 rfl, h.2.2.2.1 rfl, h.2.2.2.2.1 rfl, h.2.2.2.2.2 rfl⟩

/-! ## Claim C3 -/

/-- C3: a response whose result is an array of exactly 1000 records takes the
full-page (`QueryTooLarge`) branch — pagination when `fromBlock = toBlock`,
otherwise the `'Log response size exceeded'` error — and never the plain
success return; the length-1000 check decides this before any string rule is
consulted (the branch depends only on the length and the block bounds). -/
theorem full_page_classified_before_string_checks (cs : String → String)
    (responses : Nat → JsResult) (filter : Filter) (fuel page : Nat)
    (l : List RawLog)
    (h : responses page = .arr l) (hl : l.length = 1000) :
    getEvents cs responses filter (fuel + 1) page =
      if filter.fromBlock = filter.toBlock then
        match getEvents cs responses filter fuel (page + 1) with
        | .error e => .error e
        | .ok tail => .ok (l.map (formatEtherscanEvent cs) ++ tail)
      else .error (.errMsg "Log response size exceeded") :=
  getEvents_arr_full_unfold cs responses filter fuel page l h hl

/-- C3 witness: a concrete full page on a multi-block filter yields the
size-exceeded error. -/
theorem full_page_classified_before_string_checks_witness :
    getEvents id fullPageOracle filterMultiBlock 1 1 =
      .error (.errMsg "Log response size exceeded") := by
  rw [full_page_classified_before_string_checks id fullPageOracle filterMultiBlock 0 1
    (List.replicate 1000 exampleRawLog) rfl (by simp)]
  rw [if_neg (by decide)]

/-! ## Claim C4 -/

/-- C4: on a single-block filter (`fromBlock = toBlock`), a full page of 1000
records makes `getEvents` fetch `page + 1` and prepend the current page's
normalized records to the recursive result; consequently two consecutive full
pages followed by a partial page return the concatenation of all three pages'
normalized records in page order. -/
theorem single_block_pagination_concatenates (cs : String → String)
    (responses : Nat → JsResult) (filter : Filter) (page : Nat)
    (l1 l2 l3 : List RawLog)
    (hfb : filter.fromBlock = filter.toBlock)
    (h1 : responses page = .arr l1) (hl1 : l1.length = 1000)
    (h2 : responses (page + 1) = .arr l2) (hl2 : l2.length = 1000)
    (h3 : responses (page + 2) = .arr l3) (hl3 : l3.length ≠ 1000) :
    (∀ fuel tail, getEvents cs responses filter fuel (page + 1) = .ok tail →
        getEvents cs responses filter (fuel + 1) page =
          .ok (l1.map (formatEtherscanEvent cs) ++ tail)) ∧
    (∀ fuel, getEvents cs responses filter (fuel + 3) page =
        .ok (l1.map (formatEtherscanEvent cs) ++
          (l2.map (formatEtherscanEvent cs) ++ l3.map (formatEtherscanEvent cs)))) := by
  constructor
  · intro fuel tail htail
    exact getEvents_paginate_step cs responses filter fuel page l1 hfb h1 hl1 tail htail
  · intro fuel
    have s3 : getEvents cs responses filter (fuel + 1) (page + 2) =
        .ok (l3.map (formatEtherscanEvent cs)) :=
      getEvents_arr_partial_unfold cs responses filter fuel (page + 2) l3 h3 hl3
    have s2 : getEvents cs responses filter (fuel + 2) (page + 1) =
        .ok (l2.map (formatEtherscanEvent cs) ++ l3.map (formatEtherscanEvent cs)) :=
      getEvents_paginate_step cs responses filter (fuel + 1) (page + 1) l2 hfb h2 hl2 _ s3
    exact getEvents_paginate_step cs responses filter (fuel + 2) page l1 hfb h1 hl1 _ s2

/-- C4 witness: two concrete full pages then a partial page concatenate in
page order. -/
theorem single_block_pagination_concatenates_witness :
    getEvents id paginationOracle filterSingleBlock 3 1 =
      .ok ((List.replicate 1000 exampleRawLog).map (formatEtherscanEvent id) ++
        ((List.replicate 1000 exampleRawLog).map (formatEtherscanEvent id) ++
          [exampleRawLog].map (formatEtherscanEvent id))) :=
  (single_block_pagination_concatenates id paginationOracle filterSingleBlock 1
    (List.replicate 1000 exampleRawLog) (List.replicate 1000 exampleRawLog)
    [exampleRawLog] rfl rfl (by simp) rfl (by simp) rfl (by simp)).2 0

/-! ## Claim C5 -/

/-- C5: on a multi-block filter (`fromBlock ≠ toBlock`), a full page of 1000
records makes `getEvents` raise `'Log response size exceeded'`; the outcome
depends on no page other than the current one, so no `page + 1` request is
attempted. -/
theorem multi_block_full_page_raises_size_exceeded (cs : String → String)
    (responses : Nat → JsResult) (filter : Filter) (fuel page : Nat)
    (l : List RawLog)
    (hfb : filter.fromBlock ≠ filter.toBlock)
    (h : responses page = .arr l) (hl : l.length = 1000) :
    getEvents cs responses filter (fuel + 1) page =
      .error (.errMsg "Log response size exceeded") := by
  rw [getEvents_arr_full_unfold cs responses filter fuel page l h hl, if_neg hfb]

/-- C5 witness: a concrete full page with `toBlock` absent raises the
size-exceeded error. -/
theorem multi_block_full_page_raises_size_exceeded_witness :
    getEvents id fullPageOracle filterFromOnly 1 1 =
      .error (.errMsg "Log response size exceeded") :=
  multi_block_full_page_raises_size_exceeded id fullPageOracle filterFromOnly 0 1
    (List.replicate 1000 exampleRawLog) (by decide) rfl (by simp)

/-! ## Claim C6 -/

/-- C6: for a filter whose topics are well-formed (nonempty strings), each of
the six pairwise combinator parameters is `'and'` exactly when both topics of
the pair are present (position `j` of the pair `i < j` is present iff the
topics list reaches it), and is omitted (`none`) otherwise. -/
theorem combinators_exactly_when_both_topics_present (filter : Filter)
    (page : Nat) (apiKey : Option String) (ts : List TopicEntry)
    (hts : filter.topics = some ts)
    (hvalid : ts.all validTopicB = true) :
    ((prepareEtherscanGetLogsQuery filter page apiKey).topic0_1_opr
        = if 1 < ts.length then some "and" else none) ∧
    ((prepareEtherscanGetLogsQuery filter page apiKey).topic0_2_opr
        = if 2 < ts.length then some "and" else none) ∧
    ((prepareEtherscanGetLogsQuery filter page apiKey).topic0_3_opr
        = if 3 < ts.length then some "and" else none) ∧
    ((prepareEtherscanGetLogsQuery filter page apiKey).topic1_2_opr
        = if 2 < ts.length then some "and" else none) ∧
    ((prepareEtherscanGetLogsQuery filter page apiKey).topic1_3_opr
        = if 3 < ts.length then some "and" else none) ∧
    ((prepareEtherscanGetLogsQuery filter page apiKey).topic2_3_opr
        = if 3 < ts.length then some "and" else none) := by
  simp only [prepareEtherscanGetLogsQuery, hts, Option.getD_some]
  refine ⟨?_, ?_, ?_, ?_, ?_, ?_⟩ <;>
    exact combinator_value ts hvalid (by omega)

/-- C6 witness: a single-topic filter yields `topic0` and no combinators; a
four-topic filter yields all six combinators equal to `'and'`. -/
theorem combinators_exactly_when_both_topics_present_witness :
    (prepareEtherscanGetLogsQuery singleTopicFilter 1 none).topic0 = .str "0xa1b2" ∧
    (prepareEtherscanGetLogsQuery singleTopicFilter 1 none).topic0_1_opr = none ∧
    (prepareEtherscanGetLogsQuery singleTopicFilter 1 none).topic0_2_opr = none ∧
    (prepareEtherscanGetLogsQuery singleTopicFilter 1 none).topic0_3_opr = none ∧
    (prepareEtherscanGetLogsQuery singleTopicFilter 1 none).topic1_2_opr = none ∧
    (prepareEtherscanGetLogsQuery singleTopicFilter 1 none).topic1_3_opr = none ∧
    (prepareEtherscanGetLogsQuery singleTopicFilter 1 none).topic2_3_opr = none ∧
    (prepareEtherscanGetLogsQuery fourTopicFilter 1 none).topic0_1_opr = some "and" ∧
    (prepareEtherscanGetLogsQuery fourTopicFilter 1 none).topic0_2_opr = some "and" ∧
    (prepareEtherscanGetLogsQuery fourTopicFilter 1 none).topic0_3_opr = some "and" ∧
    (prepareEtherscanGetLogsQuery fourTopicFilter 1 none).topic1_2_opr = some "and" ∧
    (prepareEtherscanGetLogsQuery fourTopicFilter 1 none).topic1_3_opr = some "and" ∧
    (prepareEtherscanGetLogsQuery fourTopicFilter 1 none).topic2_3_opr = some "and" := by
  have h1 := combinators_exactly_when_both_topics_present singleTopicFilter 1 none
    [.str "0xa1b2"] rfl (by decide)
  have h4 := combinators_exactly_when_both_topics_present fourTopicFilter 1 none
    [.str "0xa", .str "0xb", .str "0xc", .str "0xd"] rfl (by decide)
  refine ⟨rfl, ?_, ?_, ?_, ?_, ?_, ?_, ?_, ?_, ?_, ?_, ?_, ?_⟩
  · simpa using h1.1
  · simpa using h1.2.1
  · simpa using h1.2.2.1
  · simpa using h1.2.2.2.1
  · simpa using h1.2.2.2.2.1
  · simpa using h1.2.2.2.2.2
  · simpa using h4.1
  · simpa using h4.2.1
  · simpa using h4.2.2.1
  · simpa using h4.2.2.2.1
  · simpa using h4.2.2.2.2.1
  · simpa using h4.2.2.2.2.2

/-! ## Claim C7 -/

/-- C7 counterexample: a 1000-character string containing neither marker is not
raised verbatim — the length-1000 check fires first and, on a multi-block
filter, `getEvents` raises `'Log response size exceeded'` instead of the
string itself. -/
theorem provider_error_thousand_char_counterexample :
    jsIncludes thousandChars "Max rate limit reached" = false ∧
    jsIncludes thousandChars "Query Timeout occured" = false ∧
    thousandChars ≠ "Log response size exceeded" ∧
    getEvents id longStringOracle filterMultiBlock 1 1 =
      .error (.errMsg "Log response size exceeded") ∧
    getEvents id longStringOracle filterMultiBlock 1 1 ≠
      .error (.errMsg thousandChars) :=
  ⟨by decide, by decide, by decide, rfl, by decide⟩

/-- C7 (amended): a response whose result is a string of length other than
1000 containing neither the rate-limit marker nor the query-timeout marker
makes `getEvents` raise an error carrying that exact string, without
retrying. -/
theorem provider_error_string_raised_verbatim (cs : String → String)
    (responses : Nat → JsResult) (filter : Filter) (fuel page : Nat) (s : String)
    (h : responses page = .str s) (hlen : s.length ≠ 1000)
    (h1 : jsIncludes s "Max rate limit reached" = false)
    (h2 : jsIncludes s "Query Timeout occured" = false) :
    getEvents cs responses filter (fuel + 1) page = .error (.errMsg s) := by
  simp only [getEvents, h, JsResult.jsLength]
  rw [if_neg (by simpa using hlen)]
  simp [h1, h2]

/-- C7 witness: a concrete unrecognized provider string is raised verbatim. -/
theorem provider_error_string_raised_verbatim_witness :
    getEvents id (fun _ => .str "unexpected provider failure") filterMultiBlock 1 1 =
      .error (.errMsg "unexpected provider failure") :=
  provider_error_string_raised_verbatim id (fun _ => .str "unexpected provider failure")
    filterMultiBlock 0 1 "unexpected provider failure" rfl (by decide) (by decide) (by decide)

/-! ## Claim C8 -/

/-- C8: the built query's `fromBlock` is the filter's `fromBlock` when present
and 0 when absent; its `toBlock` is the filter's `toBlock` when present and
the `'latest'` sentinel when absent. -/
theorem block_bounds_defaults (filter : Filter) (page : Nat)
    (apiKey : Option String) (n m : Nat) :
    (filter.fromBlock = some n →
      (prepareEtherscanGetLogsQuery filter page apiKey).fromBlock = n) ∧
    (filter.fromBlock = none →
      (prepareEtherscanGetLogsQuery filter page apiKey).fromBlock = 0) ∧
    (filter.toBlock = some m →
      (prepareEtherscanGetLogsQuery filter page apiKey).toBlock = .num m) ∧
    (filter.toBlock = none →
      (prepareEtherscanGetLogsQuery filter page apiKey).toBlock = .latest) := by
  refine ⟨?_, ?_, ?_, ?_⟩ <;> intro h <;> simp [prepareEtherscanGetLogsQuery, h]

/-- C8 witness: a filter with `fromBlock = 7` and no `toBlock` yields
`fromBlock = 7` and the `'latest'` sentinel. -/
theorem block_bounds_defaults_witness :
    (prepareEtherscanGetLogsQuery bothBlocksFilter 1 none).fromBlock = 7 ∧
    (prepareEtherscanGetLogsQuery bothBlocksFilter 1 none).toBlock = .latest :=
  ⟨(block_bounds_defaults bothBlocksFilter 1 none 7 0).1 rfl,
    (block_bounds_defaults bothBlocksFilter 1 none 7 0).2.2.2 rfl⟩

/-! ## Claim C9 -/

/-- C9: a normalized record's topics are exactly the raw topics with the
empty (falsy) entries removed, in particular an order-preserving sublist of
the raw topics; `["0xabc", "", "0xdef"]` normalizes to `["0xabc", "0xdef"]`,
and the hex field `"0x1a"` decodes to the integer 26. -/
theorem topics_filtered_preserving_order :
    (∀ (cs : String → String) (r : RawLog),
        (formatEtherscanEvent cs r).topics = r.topics.filter (fun t => decide (t ≠ ""))) ∧
    (∀ (cs : String → String) (r : RawLog),
        ((formatEtherscanEvent cs r).topics).Sublist r.topics) ∧
    (formatEtherscanEvent id exampleRawLog).topics = ["0xabc", "0xdef"] ∧
    (formatEtherscanEvent id exampleRawLog).blockNumber = some 26 ∧
    parseIntHex "0x1a" = some 26 :=
  ⟨fun _ _ => rfl, fun _ r => List.filter_sublist r.topics, rfl, rfl, rfl⟩

/-! ## Claim C10 -/

/-- C10 counterexample: a 1000-character string result with
`fromBlock = toBlock` does take the length-1000 branch, but instead of
paginating the code calls `.map` on the string, a `TypeError` — not the
pagination the claim describes. -/
theorem thousand_char_string_counterexample :
    (longStringOracle 1).jsLength = some 1000 ∧
    filterSingleBlock.fromBlock = filterSingleBlock.toBlock ∧
    getEvents id longStringOracle filterSingleBlock 2 1 = .error .typeError :=
  ⟨by decide, rfl, rfl⟩

/-- C10 (amended): a response whose result is a string of exactly 1000
characters takes the full-page branch before any string rule: with
`fromBlock ≠ toBlock` it raises `'Log response size exceeded'`; with
`fromBlock = toBlock` mapping the string as an array of records raises a
`TypeError` instead of paginating. The rate-limit, timeout and provider-error
string rules are never consulted. -/
theorem thousand_char_string_takes_full_page_branch (cs : String → String)
    (responses : Nat → JsResult) (filter : Filter) (fuel page : Nat) (s : String)
    (h : responses page = .str s) (hl : s.length = 1000) :
    getEvents cs responses filter (fuel + 1) page =
      if filter.fromBlock = filter.toBlock then .error .typeError
      else .error (.errMsg "Log response size exceeded") := by
  simp only [getEvents, h, JsResult.jsLength, hl, JsResult.mapFormat, if_pos rfl]
  by_cases hfb : filter.fromBlock = filter.toBlock
  · simp [hfb]
  · simp [hfb]

/-- C10 witness: the amended theorem at the concrete 1000-character string on
a multi-block filter. -/
theorem thousand_char_string_takes_full_page_branch_witness :
    getEvents id longStringOracle filterMultiBlock 3 1 =
      (if filterMultiBlock.fromBlock = filterMultiBlock.toBlock then .error .typeError
        else .error (.errMsg "Log response size exceeded")) :=
  thousand_char_string_takes_full_page_branch id longStringOracle filterMultiBlock
    2 1 thousandChars rfl (by decide)

end Etherscan
